import Mathlib

/-
Verification of the Link Checker tool (`app.py`).

The development shallowly embeds the three core components of the program:

* ingestion (`process_excel_file`, app.py lines 77-113): turning a parsed
  multi-sheet workbook into the normalized dictionary of stringified cells;
* the single-slot snapshot store (`save_workbook_data` / `load_workbook_data`,
  app.py lines 52-75): a JSON file that is overwritten wholesale on save and
  read back on load, degrading to "no data" when missing or unparseable;
* the search engine (`search_link_in_workbook`, app.py lines 115-139):
  case-insensitive substring search over every cell, classifying each hit
  as Exact or Partial.

Python strings are modelled by Lean `String`; `str.lower()` and `str.strip()`
are modelled on the underlying character list (`String.data`) in their ASCII
fragment, so that every definition evaluates by kernel reduction.  The JSON
value written by `json.dump` and returned by `json.load` is modelled by an
explicit `Json` tree; the data file on disk is modelled by
`Option (Option Json)` (absent file / present-but-unparseable / parsed value).
-/

namespace LinkChecker

/-- Python `str.lower()` (ASCII fragment): lower-case every character. -/
def pyLower (s : String) : String := String.mk (s.data.map Char.toLower)

/-- Drop leading and trailing whitespace from a character list. -/
def stripList (l : List Char) : List Char :=
  ((l.dropWhile Char.isWhitespace).reverse.dropWhile Char.isWhitespace).reverse

/-- Python `str.strip()` (ASCII whitespace fragment). -/
def pyStrip (s : String) : String := String.mk (stripList s.data)

/-- Python `needle in hay` on strings, over the character lists: `needle`
occurs contiguously inside `hay` (the empty needle occurs in everything). -/
def containsSub (hay needle : List Char) : Bool :=
  match hay with
  | [] => needle.isEmpty
  | c :: t => needle.isPrefixOf (c :: t) || containsSub t needle

/-- One sheet of the normalized workbook dictionary built by
`process_excel_file`: the `'data'` (rows of stringified cells), `'columns'`
and `'rows'` entries of `workbook_data['sheets'][name]` (app.py 101-105). -/
structure SheetInfo where
  data : List (List String)
  columns : List String
  rows : Nat
  deriving DecidableEq, Repr

/-- The normalized workbook dictionary built by `process_excel_file`
(app.py 83-88 and 101-108).  `sheets` is the insertion-ordered dictionary
of sheet name to sheet data. -/
structure WorkbookData where
  sheets : List (String × SheetInfo)
  upload_time : String
  filename : String
  file_size : Nat
  total_rows : Nat
  deriving DecidableEq, Repr

/-- One result dictionary appended by `search_link_in_workbook`
(app.py 131-137). -/
structure MatchRec where
  sheet : String
  row : Nat
  column : String
  cell_value : String
  match_type : String
  deriving DecidableEq, Repr

/-- Column-name resolution of app.py line 130:
`columns[col_idx] if col_idx < len(columns) else f"Column_{col_idx + 1}"`. -/
def colNameAt (columns : List String) (col_idx : Nat) : String :=
  columns.getD col_idx ("Column_" ++ toString (col_idx + 1))

/-- The result dictionary built at app.py lines 131-137 for the cell at
`(row_idx, col_idx)` holding `cell_value`, against the processed query `q`
(`search_term.lower().strip()`). -/
def matchEntry (sheet_name : String) (columns : List String) (q : String)
    (row_idx col_idx : Nat) (cell_value : String) : MatchRec :=
  { sheet := sheet_name
    row := row_idx + 2
    column := colNameAt columns col_idx
    cell_value := cell_value
    match_type := if q = pyLower cell_value then "Exact" else "Partial" }

/-- The Boolean match rule of app.py line 129 for a single cell:
`search_term_lower in str(cell_value).lower()`. -/
def cellMatches (q : String) (cell_value : String) : Bool :=
  containsSub (pyLower cell_value).data q.data

/-- Model of `search_link_in_workbook` (app.py 115-139).  The query is lower-cased
then stripped (line 118); an empty processed query returns no results
(lines 120-121); otherwise the nested loops over sheets, rows and cells
append a result for every cell whose lower-cased value contains the
processed query (lines 123-137), which is exactly this
`flatMap`/`filterMap` over the enumerated rows and cells. -/
def search_link_in_workbook (workbook_data : WorkbookData) (search_term : String) :
    List MatchRec :=
  let q := pyStrip (pyLower search_term)
  if q = "" then []
  else
    workbook_data.sheets.flatMap fun s =>
      s.2.data.enum.flatMap fun ir =>
        ir.2.enum.filterMap fun jc =>
          if cellMatches q jc.2 then
            some (matchEntry s.1 s.2.columns q ir.1 jc.1 jc.2)
          else none

/-- Number of cells of the workbook satisfying the match rule, counted over
every sheet, row and cell. -/
def matchingCells (workbook_data : WorkbookData) (q : String) : Nat :=
  (workbook_data.sheets.map fun s =>
    (s.2.data.map fun row => row.countP (cellMatches q)).sum).sum

/-- A raw spreadsheet cell as seen by `process_excel_file` through pandas:
either missing (`pd.notna` is false: `None`/`NaN`) or a typed value. -/
inductive RawCell
  | na
  | text (s : String)
  | intCell (n : Int)
  | boolCell (b : Bool)
  deriving DecidableEq, Repr

/-- The stringification of app.py line 97:
`str(row[col]) if pd.notna(row[col]) else ""`.  A missing cell becomes the
empty string; any other value becomes its default textual representation
(`str(...)`). -/
def pyStr : RawCell → String
  | .na => ""
  | .text s => s
  | .intCell n => toString n
  | .boolCell b => if b then "True" else "False"

/-- One raw sheet (a pandas DataFrame): its column names and its rows of raw
cells, each row positionally aligned with the columns. -/
structure RawSheet where
  columns : List String
  rowsData : List (List RawCell)
  deriving DecidableEq, Repr

/-- The per-sheet body of `process_excel_file` (app.py 91-105): stringify
every cell of every row, record the column list and the row count. -/
def processSheet (df : RawSheet) : SheetInfo :=
  { data := df.rowsData.map fun row => row.map pyStr
    columns := df.columns
    rows := df.rowsData.length }

/-- Model of `process_excel_file` (app.py 77-109) on an already-parsed workbook:
build the sheet dictionary in sheet order and accumulate `total_rows`
(lines 90-108).  `filename`, `file_size` and the generated `upload_time`
are inputs here (lines 85-87). -/
def process_excel_file (filename : String) (file_size : Nat) (upload_time : String)
    (excel_data : List (String × RawSheet)) : WorkbookData :=
  { sheets := excel_data.map fun p => (p.1, processSheet p.2)
    upload_time := upload_time
    filename := filename
    file_size := file_size
    total_rows := (excel_data.map fun p => p.2.rowsData.length).sum }

/-- The JSON value written by `json.dump` and returned by `json.load`,
restricted to the shapes `workbook_data` uses: strings, natural numbers,
arrays and insertion-ordered objects. -/
inductive Json
  | str (s : String)
  | num (n : Nat)
  | arr (elems : List Json)
  | obj (members : List (String × Json))

/-- The JSON object `json.dump` writes for one sheet entry of
`workbook_data['sheets']` (app.py 101-105). -/
def sheetToJson (si : SheetInfo) : Json :=
  .obj [("data", .arr (si.data.map fun row => .arr (row.map Json.str))),
        ("columns", .arr (si.columns.map Json.str)),
        ("rows", .num si.rows)]

/-- The JSON object `json.dump` writes for the whole `workbook_data`
dictionary, keys in insertion order (app.py 83-88, 101, 108). -/
def workbookToJson (w : WorkbookData) : Json :=
  .obj [("sheets", .obj (w.sheets.map fun s => (s.1, sheetToJson s.2))),
        ("upload_time", .str w.upload_time),
        ("filename", .str w.filename),
        ("file_size", .num w.file_size),
        ("total_rows", .num w.total_rows)]

/-- Decode each element of a JSON array, failing if any element fails. -/
def decodeList {α : Type} (f : Json → Option α) : List Json → Option (List α)
  | [] => some []
  | x :: xs =>
    match f x, decodeList f xs with
    | some a, some as => some (a :: as)
    | _, _ => none

/-- Decode each value of a JSON object, keeping the keys. -/
def decodePairs {α : Type} (f : Json → Option α) :
    List (String × Json) → Option (List (String × α))
  | [] => some []
  | p :: ps =>
    match f p.2, decodePairs f ps with
    | some a, some as => some ((p.1, a) :: as)
    | _, _ => none

/-- Decode a JSON string. -/
def decodeStr : Json → Option String
  | .str s => some s
  | _ => none

/-- Decode a JSON array of strings (a row, or the column list). -/
def decodeStrList : Json → Option (List String)
  | .arr xs => decodeList decodeStr xs
  | _ => none

/-- Decode a JSON array of rows (a sheet's `'data'` entry). -/
def decodeData : Json → Option (List (List String))
  | .arr xs => decodeList decodeStrList xs
  | _ => none

/-- Decode one sheet object of the persisted representation, in the exact
shape `sheetToJson` writes (the shape the rest of the program reads back
via `sheet_info['data']`, `sheet_info['columns']`, `sheet_info['rows']`). -/
def decodeSheet : Json → Option SheetInfo
  | .obj [("data", d), ("columns", c), ("rows", .num r)] => do
    let data ← decodeData d
    let columns ← decodeStrList c
    pure { data := data, columns := columns, rows := r }
  | _ => none

/-- Decode the whole persisted workbook object, in the exact shape
`workbookToJson` writes (the shape the program reads back via
`workbook_data['sheets']`, `['upload_time']`, `['filename']`,
`['file_size']`, `['total_rows']`). -/
def decodeWorkbook : Json → Option WorkbookData
  | .obj [("sheets", .obj sheetMembers), ("upload_time", .str t),
          ("filename", .str fn), ("file_size", .num sz),
          ("total_rows", .num tr)] => do
    let sheets ← decodePairs decodeSheet sheetMembers
    pure { sheets := sheets, upload_time := t, filename := fn,
           file_size := sz, total_rows := tr }
  | _ => none

/-- State of the data file `workbook_data.json`: `none` when the file does
not exist, `some none` when it exists but `json.load` fails on its contents
(empty or partially written text), `some (some j)` when it parses to `j`. -/
abbrev StoreState := Option (Option Json)

/-- Model of `load_workbook_data` (app.py 67-75): `none` when the file is absent
(line 75) or unparseable (the `except` at 73-74), otherwise the parsed
JSON value. -/
def load_workbook_data : StoreState → Option Json
  | none => none
  | some none => none
  | some (some j) => some j

/-- The effect of `open(DATA_FILE, "w")` alone (app.py line 64): opening
for writing truncates the file in place, so the slot now exists but holds
no parseable JSON until the dump completes. -/
def truncate_slot (_ : StoreState) : StoreState := some none

/-- The effect of a completed `json.dump(data, f)` into the opened file
(app.py line 65): the slot holds the JSON encoding of the new workbook. -/
def dump_into (_ : StoreState) (data : WorkbookData) : StoreState :=
  some (some (workbookToJson data))

/-- Model of `save_workbook_data` (app.py 52-65) when the write runs to completion:
the informational re-read of the old slot (lines 55-61, wrapped in
`try/except: pass`) does not change the slot, then the file is opened for
writing (truncated) and the new dictionary dumped into it. -/
def save_workbook_data (st : StoreState) (data : WorkbookData) : StoreState :=
  dump_into (truncate_slot st) data

/-- The scenario workbook of the specification: sheet "Links" with columns
ID and URL and two data rows. -/
def sheetLinks : SheetInfo :=
  { data := [["1", "https://a.com"], ["2", "HTTPS://A.com/page"]]
    columns := ["ID", "URL"]
    rows := 2 }

/-- A concrete snapshot holding `sheetLinks`, used to instantiate the
theorems below. -/
def wb0 : WorkbookData :=
  { sheets := [("Links", sheetLinks)]
    upload_time := "2024-01-01 09:00:00"
    filename := "links.xlsx"
    file_size := 2048
    total_rows := 2 }

/-- A sheet whose single cell is the query surrounded by whitespace. -/
def sheetPad : SheetInfo :=
  { data := [[" X "]]
    columns := ["A"]
    rows := 1 }

/-- A concrete snapshot holding `sheetPad`. -/
def wbPad : WorkbookData :=
  { sheets := [("S", sheetPad)]
    upload_time := "2024-01-02 09:00:00"
    filename := "pad.xlsx"
    file_size := 64
    total_rows := 1 }

/-- A concrete raw workbook with a missing cell, an integer cell, a boolean
cell and a text cell. -/
def raw0 : List (String × RawSheet) :=
  [("Sheet1",
    { columns := ["A", "B"]
      rowsData := [[.na, .text "https://a.com"], [.intCell 7, .boolCell true]] })]

/-- The first result of searching `wb0` for "a.com": sheet "Links",
display row 2, column "URL", a partial match. -/
def m0 : MatchRec :=
  { sheet := "Links", row := 2, column := "URL"
    cell_value := "https://a.com", match_type := "Partial" }


/-- Helper: a needle that is a Boolean prefix of the haystack is contained
in it. -/
theorem containsSub_of_isPrefixOf {hay needle : List Char}
    (h : needle.isPrefixOf hay = true) : containsSub hay needle = true := by
  cases hay with
  | nil =>
    cases needle with
    | nil => rfl
    | cons a t => simp [List.isPrefixOf] at h
  | cons c t => simp [containsSub, h]

/-- Helper: `containsSub` finds a needle that occurs with arbitrary text on
both sides, the characterization of Python's `in` used below. -/
theorem containsSub_append (pre needle post : List Char) :
    containsSub (pre ++ needle ++ post) needle = true := by
  induction pre with
  | nil =>
    simp only [List.nil_append]
    exact containsSub_of_isPrefixOf
      (List.isPrefixOf_iff_prefix.mpr (List.prefix_append _ _))
  | cons c cs ih =>
    have h2 : ((c :: cs) ++ needle ++ post) = c :: (cs ++ needle ++ post) := by simp
    rw [h2]
    show (needle.isPrefixOf (c :: (cs ++ needle ++ post))
        || containsSub (cs ++ needle ++ post) needle) = true
    rw [ih, Bool.or_true]

/-- Helper: decoding an encoded list element by element recovers the list. -/
theorem decodeList_map {α : Type} (f : Json → Option α) (g : α → Json)
    (h : ∀ a, f (g a) = some a) (l : List α) :
    decodeList f (l.map g) = some l := by
  induction l with
  | nil => rfl
  | cons a as ih => simp [decodeList, h a, ih]

/-- Helper: a JSON-encoded list of strings decodes back to itself. -/
theorem decodeStrList_round (l : List String) :
    decodeStrList (.arr (l.map .str)) = some l := by
  simp [decodeStrList, decodeList_map decodeStr Json.str (fun _ => rfl)]

/-- Helper: a JSON-encoded table of strings decodes back to itself. -/
theorem decodeData_round (data : List (List String)) :
    decodeData (.arr (data.map fun row => .arr (row.map Json.str))) = some data := by
  simp [decodeData,
    decodeList_map decodeStrList (fun row => .arr (row.map Json.str)) decodeStrList_round]

/-- Helper: a JSON-encoded sheet decodes back to itself. -/
theorem decodeSheet_round (si : SheetInfo) :
    decodeSheet (sheetToJson si) = some si := by
  simp [decodeSheet, sheetToJson, decodeData_round, decodeStrList_round]

/-- Helper: decoding an encoded key-value list recovers it. -/
theorem decodePairs_map {α : Type} (f : Json → Option α) (g : α → Json)
    (h : ∀ a, f (g a) = some a) (l : List (String × α)) :
    decodePairs f (l.map fun p => (p.1, g p.2)) = some l := by
  induction l with
  | nil => rfl
  | cons p ps ih => simp [decodePairs, h p.2, ih]

/-- Helper: the JSON encoding of a workbook decodes back to exactly that
workbook — the persisted representation determines the snapshot in all
fields, all sheets, rows and columns, in order. -/
theorem decodeWorkbook_round (w : WorkbookData) :
    decodeWorkbook (workbookToJson w) = some w := by
  simp [decodeWorkbook, workbookToJson,
    decodePairs_map decodeSheet sheetToJson decodeSheet_round]

/-- Helper: every member of the search result list arises from some cell of
some sheet, with the hit test true, and equals the entry the loop body
builds for that cell. -/
theorem mem_search_elim {wb : WorkbookData} {q : String} {m : MatchRec}
    (hm : m ∈ search_link_in_workbook wb q) :
    ∃ s ∈ wb.sheets, ∃ (i j : Nat) (hi : i < s.2.data.length)
      (hj : j < (s.2.data.get ⟨i, hi⟩).length),
      cellMatches (pyStrip (pyLower q)) ((s.2.data.get ⟨i, hi⟩).get ⟨j, hj⟩) = true ∧
      m = matchEntry s.1 s.2.columns (pyStrip (pyLower q)) i j
            ((s.2.data.get ⟨i, hi⟩).get ⟨j, hj⟩) := by
  by_cases hq : pyStrip (pyLower q) = ""
  · simp [search_link_in_workbook, hq] at hm
  · simp only [search_link_in_workbook, if_neg hq] at hm
    obtain ⟨s, hs, hm⟩ := List.mem_flatMap.mp hm
    obtain ⟨ir, hir, hm⟩ := List.mem_flatMap.mp hm
    obtain ⟨jc, hjc, hm⟩ := List.mem_filterMap.mp hm
    have hrow := List.mem_enum_iff_getElem?.mp hir
    have hcell := List.mem_enum_iff_getElem?.mp hjc
    obtain ⟨hi, hrow⟩ := List.getElem?_eq_some_iff.mp hrow
    obtain ⟨hj, hcell⟩ := List.getElem?_eq_some_iff.mp hcell
    by_cases hc : cellMatches (pyStrip (pyLower q)) jc.2
    · rw [if_pos hc] at hm
      refine ⟨s, hs, ir.1, jc.1, hi, ?_, ?_, ?_⟩
      · rw [List.get_eq_getElem, hrow]; exact hj
      · simp only [List.get_eq_getElem, hrow, hcell]; exact hc
      · simp only [List.get_eq_getElem, hrow, hcell]
        exact (Option.some.injEq _ _ ▸ hm).symm
    · rw [if_neg hc] at hm; exact absurd hm (by simp)

/-- Helper: conversely, the entry of every cell passing the hit test is in
the search result list, provided the processed query is non-empty. -/
theorem matchEntry_mem {wb : WorkbookData} {q : String}
    (hq : pyStrip (pyLower q) ≠ "") {s : String × SheetInfo} (hs : s ∈ wb.sheets)
    {i j : Nat} (hi : i < s.2.data.length) (hj : j < (s.2.data.get ⟨i, hi⟩).length)
    (hc : cellMatches (pyStrip (pyLower q)) ((s.2.data.get ⟨i, hi⟩).get ⟨j, hj⟩) = true) :
    matchEntry s.1 s.2.columns (pyStrip (pyLower q)) i j
        ((s.2.data.get ⟨i, hi⟩).get ⟨j, hj⟩) ∈ search_link_in_workbook wb q := by
  simp only [search_link_in_workbook, if_neg hq]
  refine List.mem_flatMap.mpr ⟨s, hs, ?_⟩
  refine List.mem_flatMap.mpr ⟨(i, s.2.data.get ⟨i, hi⟩), ?_, ?_⟩
  · exact List.mem_enum_iff_getElem?.mpr (by simp [List.get_eq_getElem])
  · refine List.mem_filterMap.mpr
      ⟨(j, (s.2.data.get ⟨i, hi⟩).get ⟨j, hj⟩), ?_, ?_⟩
    · exact List.mem_enum_iff_getElem?.mpr (by simp [List.get_eq_getElem])
    · rw [if_pos hc]

/-- Helper: filtering the enumerated cells of a row keeps exactly as many
entries as there are cells passing the test. -/
theorem length_filterMap_if {β : Type} (g : Nat → String → β) (p : String → Bool)
    (n : Nat) (l : List String) :
    ((List.enumFrom n l).filterMap fun jc =>
        if p jc.2 then some (g jc.1 jc.2) else none).length = l.countP p := by
  induction l generalizing n with
  | nil => rfl
  | cons a t ih =>
    by_cases hp : p a <;>
      simp [List.enumFrom, List.filterMap_cons, List.countP_cons, hp, ih]

/-- Helper: the rows loop of one sheet produces one entry per matching cell
of that sheet. -/
theorem length_inner (nm : String) (cols : List String) (q : String)
    (n : Nat) (data : List (List String)) :
    ((List.enumFrom n data).flatMap fun ir =>
        ir.2.enum.filterMap fun jc =>
          if cellMatches q jc.2 then
            some (matchEntry nm cols q ir.1 jc.1 jc.2) else none).length
      = (data.map fun row => row.countP (cellMatches q)).sum := by
  induction data generalizing n with
  | nil => rfl
  | cons row rest ih =>
    simp only [List.enumFrom, List.flatMap_cons, List.length_append,
      List.map_cons, List.sum_cons, ih]
    congr 1
    have h := length_filterMap_if (fun jk c => matchEntry nm cols q n jk c)
      (cellMatches q) 0 row
    simpa [List.enum] using h

/-- Helper: the search returns one entry per matching cell of the whole
workbook. -/
theorem search_length_eq (wb : WorkbookData) (q : String)
    (hq : pyStrip (pyLower q) ≠ "") :
    (search_link_in_workbook wb q).length
      = matchingCells wb (pyStrip (pyLower q)) := by
  simp only [search_link_in_workbook, if_neg hq, matchingCells]
  rw [List.length_flatMap]
  congr 1
  apply List.map_congr_left
  intro s _
  have h := length_inner s.1 s.2.columns (pyStrip (pyLower q)) 0 s.2.data
  simpa [List.enum, Function.comp] using h

/-- Helper: in range, the resolved column name is the column list entry. -/
theorem colNameAt_of_lt {columns : List String} {j : Nat} (h : j < columns.length) :
    colNameAt columns j = columns.get ⟨j, h⟩ := by
  simp [colNameAt, List.getD_eq_getElem?_getD, List.getElem?_eq_getElem h,
    List.get_eq_getElem]

/-- Helper: out of range, the resolved column name is the synthesized
placeholder with 1-based position. -/
theorem colNameAt_of_ge {columns : List String} {j : Nat} (h : columns.length ≤ j) :
    colNameAt columns j = "Column_" ++ toString (j + 1) := by
  simp [colNameAt, List.getD_eq_getElem?_getD, List.getElem?_eq_none h]

/-- Helper: the two match-kind labels differ. -/
theorem kind_strings_distinct : ("Exact" : String) ≠ "Partial" := by decide

/-- Helper: the kind of a built entry is Exact exactly when the lower-cased
cell equals the processed query, and Partial exactly otherwise. -/
theorem matchEntry_kind (nm : String) (cols : List String) (q : String)
    (i j : Nat) (c : String) :
    ((matchEntry nm cols q i j c).match_type = "Exact" ↔ pyLower c = q)
    ∧ ((matchEntry nm cols q i j c).match_type = "Partial" ↔ pyLower c ≠ q) := by
  by_cases he : q = pyLower c
  · have h1 : (matchEntry nm cols q i j c).match_type = "Exact" := by
      simp [matchEntry, he]
    rw [h1]
    exact ⟨⟨fun _ => he.symm, fun _ => rfl⟩,
           ⟨fun h => absurd h kind_strings_distinct, fun h => absurd he.symm h⟩⟩
  · have h1 : (matchEntry nm cols q i j c).match_type = "Partial" := by
      simp [matchEntry, he]
    rw [h1]
    exact ⟨⟨fun h => absurd h.symm kind_strings_distinct, fun h => absurd h.symm he⟩,
           ⟨fun _ h => he h.symm, fun _ => rfl⟩⟩

/-- C1: for every workbook and every query whose processed (lower-cased then
stripped) form is non-empty, the search is sound — every returned match's
`cell_value` contains the processed query case-insensitively — and complete
without duplication: the result has exactly one entry per matching cell
(its length equals the count of matching cells), and the entry of every
matching cell, carrying its sheet name, its row index plus 2 and its
resolved column, occurs in the result. -/
theorem search_sound_and_complete (wb : WorkbookData) (q : String)
    (hq : pyStrip (pyLower q) ≠ "") :
    (∀ m ∈ search_link_in_workbook wb q,
        cellMatches (pyStrip (pyLower q)) m.cell_value = true)
    ∧ (search_link_in_workbook wb q).length = matchingCells wb (pyStrip (pyLower q))
    ∧ (∀ s ∈ wb.sheets, ∀ (i j : Nat) (hi : i < s.2.data.length)
          (hj : j < (s.2.data.get ⟨i, hi⟩).length),
        cellMatches (pyStrip (pyLower q)) ((s.2.data.get ⟨i, hi⟩).get ⟨j, hj⟩) = true →
        matchEntry s.1 s.2.columns (pyStrip (pyLower q)) i j
            ((s.2.data.get ⟨i, hi⟩).get ⟨j, hj⟩) ∈ search_link_in_workbook wb q) := by
  refine ⟨?_, search_length_eq wb q hq, ?_⟩
  · intro m hm
    obtain ⟨s, hs, i, j, hi, hj, hc, hmeq⟩ := mem_search_elim hm
    rw [hmeq]
    exact hc
  · intro s hs i j hi hj hc
    exact matchEntry_mem hq hs hi hj hc

/-- Witness for C1 on the scenario workbook and the query "a.com". -/
theorem search_sound_and_complete_witness :
    pyStrip (pyLower "a.com") ≠ ""
    ∧ ((∀ m ∈ search_link_in_workbook wb0 "a.com",
        cellMatches (pyStrip (pyLower "a.com")) m.cell_value = true)
      ∧ (search_link_in_workbook wb0 "a.com").length
          = matchingCells wb0 (pyStrip (pyLower "a.com"))
      ∧ (∀ s ∈ wb0.sheets, ∀ (i j : Nat) (hi : i < s.2.data.length)
            (hj : j < (s.2.data.get ⟨i, hi⟩).length),
          cellMatches (pyStrip (pyLower "a.com"))
              ((s.2.data.get ⟨i, hi⟩).get ⟨j, hj⟩) = true →
          matchEntry s.1 s.2.columns (pyStrip (pyLower "a.com")) i j
              ((s.2.data.get ⟨i, hi⟩).get ⟨j, hj⟩)
            ∈ search_link_in_workbook wb0 "a.com")) :=
  ⟨by decide, search_sound_and_complete wb0 "a.com" (by decide)⟩

/-- C2: the save of app.py is not atomic.  `save_workbook_data` factors
through `truncate_slot` — the `open(DATA_FILE, "w")` of line 64 truncates
the data file in place before `json.dump` writes the new contents — and at
that intermediate state (the state left behind if the write fails or the
process dies, and the state a concurrent load observes) the previously
persisted snapshot is no longer loadable: load yields `none` instead of the
previous snapshot, contradicting the claim that a failed save leaves the
previous snapshot untouched and authoritative. -/
theorem save_truncation_loses_previous_snapshot :
    save_workbook_data (some (some (workbookToJson wb0))) wb0
      = dump_into (truncate_slot (some (some (workbookToJson wb0)))) wb0
    ∧ load_workbook_data (some (some (workbookToJson wb0))) = some (workbookToJson wb0)
    ∧ load_workbook_data (truncate_slot (some (some (workbookToJson wb0)))) = none :=
  ⟨rfl, rfl, rfl⟩

/-- C3: for every prior slot state and every snapshot, after a completed
save the load returns the persisted JSON image of the snapshot, and that
image decodes back to the snapshot exactly — all fields, all sheets, rows
and columns, in order. -/
theorem save_load_round_trip (st : StoreState) (w : WorkbookData) :
    load_workbook_data (save_workbook_data st w) = some (workbookToJson w)
    ∧ decodeWorkbook (workbookToJson w) = some w :=
  ⟨rfl, decodeWorkbook_round w⟩

/-- C4: every match returned by the search has kind "Exact" precisely when
the lower-cased cell value equals the processed (lower-cased, stripped)
query, and kind "Partial" precisely otherwise. -/
theorem match_kind_exact_iff (wb : WorkbookData) (q : String) (m : MatchRec)
    (hm : m ∈ search_link_in_workbook wb q) :
    (m.match_type = "Exact" ↔ pyLower m.cell_value = pyStrip (pyLower q))
    ∧ (m.match_type = "Partial" ↔ pyLower m.cell_value ≠ pyStrip (pyLower q)) := by
  obtain ⟨s, hs, i, j, hi, hj, hc, hmeq⟩ := mem_search_elim hm
  rw [hmeq]
  exact matchEntry_kind s.1 s.2.columns (pyStrip (pyLower q)) i j _

/-- Witness for C4 on the partial match of "a.com" in the scenario
workbook. -/
theorem match_kind_exact_iff_witness :
    m0 ∈ search_link_in_workbook wb0 "a.com"
    ∧ ((m0.match_type = "Exact" ↔ pyLower m0.cell_value = pyStrip (pyLower "a.com"))
      ∧ (m0.match_type = "Partial" ↔ pyLower m0.cell_value ≠ pyStrip (pyLower "a.com"))) :=
  ⟨by decide, match_kind_exact_iff wb0 "a.com" m0 (by decide)⟩

/-- C5: whenever the processed query is empty (for example the query is
empty or all whitespace), the search returns the empty list for any
workbook, and in particular does not fail. -/
theorem search_empty_query (wb : WorkbookData) (q : String)
    (hq : pyStrip (pyLower q) = "") :
    search_link_in_workbook wb q = [] := by
  simp [search_link_in_workbook, hq]

/-- Witness for C5 with a whitespace-only query. -/
theorem search_empty_query_witness :
    pyStrip (pyLower "   ") = "" ∧ search_link_in_workbook wb0 "   " = [] :=
  ⟨by decide, search_empty_query wb0 "   " (by decide)⟩

/-- C6: the load returns `none` both when no snapshot has ever been saved
(the data file does not exist) and when the persisted representation exists
but is unreadable or corrupt (the `json.load` failure absorbed by the
`except` branch), instead of raising to the caller. -/
theorem load_missing_or_corrupt_none :
    load_workbook_data none = none ∧ load_workbook_data (some none) = none :=
  ⟨rfl, rfl⟩

/-- C7: ingestion stringifies every cell: the produced sheet dictionary is,
sheet by sheet and position by position, the stringification of the raw
workbook (so every cell value is a string), a missing cell becomes the
empty string, `total_rows` equals the sum of the sheets' `rows` fields, and
each sheet's `rows` field equals its number of rows. -/
theorem process_stringifies (filename : String) (file_size : Nat)
    (upload_time : String) (excel_data : List (String × RawSheet)) :
    (process_excel_file filename file_size upload_time excel_data).sheets
      = (excel_data.map fun p => (p.1,
          { data := p.2.rowsData.map fun row => row.map pyStr
            columns := p.2.columns
            rows := p.2.rowsData.length }))
    ∧ pyStr RawCell.na = ""
    ∧ (process_excel_file filename file_size upload_time excel_data).total_rows
        = ((process_excel_file filename file_size upload_time excel_data).sheets.map
            fun s => s.2.rows).sum
    ∧ ∀ s ∈ (process_excel_file filename file_size upload_time excel_data).sheets,
        s.2.rows = s.2.data.length := by
  refine ⟨rfl, rfl, ?_, ?_⟩
  · simp only [process_excel_file, List.map_map]
    rfl
  · intro s hs
    simp only [process_excel_file] at hs
    obtain ⟨p, hp, rfl⟩ := List.mem_map.mp hs
    simp [processSheet]

/-- Witness for C7 on a concrete raw workbook with a missing, an integer, a
boolean and a text cell. -/
theorem process_stringifies_witness :
    (process_excel_file "daily.xlsx" 4096 "2024-01-03 08:00:00" raw0).sheets
      = (raw0.map fun p => (p.1,
          { data := p.2.rowsData.map fun row => row.map pyStr
            columns := p.2.columns
            rows := p.2.rowsData.length }))
    ∧ pyStr RawCell.na = ""
    ∧ (process_excel_file "daily.xlsx" 4096 "2024-01-03 08:00:00" raw0).total_rows
        = ((process_excel_file "daily.xlsx" 4096 "2024-01-03 08:00:00" raw0).sheets.map
            fun s => s.2.rows).sum
    ∧ ∀ s ∈ (process_excel_file "daily.xlsx" 4096 "2024-01-03 08:00:00" raw0).sheets,
        s.2.rows = s.2.data.length :=
  process_stringifies "daily.xlsx" 4096 "2024-01-03 08:00:00" raw0

/-- C8: every match returned by the search comes from a cell whose
zero-based row index `i` gives `row = i + 2`, whose column is the column
list entry at the cell's position when that position is in range, and the
synthesized placeholder "Column_(n)" with 1-based position otherwise. -/
theorem match_row_number_and_column (wb : WorkbookData) (q : String) (m : MatchRec)
    (hm : m ∈ search_link_in_workbook wb q) :
    ∃ s ∈ wb.sheets, ∃ (i j : Nat) (hi : i < s.2.data.length)
      (hj : j < (s.2.data.get ⟨i, hi⟩).length),
      m.sheet = s.1
      ∧ m.cell_value = (s.2.data.get ⟨i, hi⟩).get ⟨j, hj⟩
      ∧ m.row = i + 2
      ∧ (∀ h : j < s.2.columns.length, m.column = s.2.columns.get ⟨j, h⟩)
      ∧ (s.2.columns.length ≤ j → m.column = "Column_" ++ toString (j + 1)) := by
  obtain ⟨s, hs, i, j, hi, hj, hc, hmeq⟩ := mem_search_elim hm
  refine ⟨s, hs, i, j, hi, hj, ?_, ?_, ?_, ?_, ?_⟩
  · rw [hmeq]
    rfl
  · rw [hmeq]
    rfl
  · rw [hmeq]
    rfl
  · intro h
    rw [hmeq]
    exact colNameAt_of_lt h
  · intro h
    rw [hmeq]
    exact colNameAt_of_ge h

/-- Witness for C8 on the partial match of "a.com" in the scenario
workbook. -/
theorem match_row_number_and_column_witness :
    m0 ∈ search_link_in_workbook wb0 "a.com"
    ∧ (∃ s ∈ wb0.sheets, ∃ (i j : Nat) (hi : i < s.2.data.length)
        (hj : j < (s.2.data.get ⟨i, hi⟩).length),
        m0.sheet = s.1
        ∧ m0.cell_value = (s.2.data.get ⟨i, hi⟩).get ⟨j, hj⟩
        ∧ m0.row = i + 2
        ∧ (∀ h : j < s.2.columns.length, m0.column = s.2.columns.get ⟨j, h⟩)
        ∧ (s.2.columns.length ≤ j → m0.column = "Column_" ++ toString (j + 1))) :=
  ⟨by decide, match_row_number_and_column wb0 "a.com" m0 (by decide)⟩

/-- C9: saving ignores the state of the previously persisted slot — the
result is the same whatever the slot held, including when it was missing
or corrupt — and after the save the load returns the new snapshot's image,
which decodes to exactly the new snapshot. -/
theorem save_independent_of_old_slot (w : WorkbookData) :
    (∀ st : StoreState, save_workbook_data st w = save_workbook_data none w)
    ∧ load_workbook_data (save_workbook_data none w) = some (workbookToJson w)
    ∧ load_workbook_data (save_workbook_data (some none) w) = some (workbookToJson w)
    ∧ decodeWorkbook (workbookToJson w) = some w :=
  ⟨fun _ => rfl, rfl, rfl, decodeWorkbook_round w⟩

/-- C10: cells are compared untrimmed — only the query is stripped — so a
cell whose lower-cased value is the processed query surrounded by
whitespace (at least one character of it) is returned by the search, and
its kind is "Partial", never "Exact"; moreover every returned match holding
that cell value has kind "Partial". -/
theorem padded_cell_matches_partially (wb : WorkbookData) (q : String)
    (s : String × SheetInfo) (hs : s ∈ wb.sheets) (i j : Nat)
    (hi : i < s.2.data.length) (hj : j < (s.2.data.get ⟨i, hi⟩).length)
    (ws1 ws2 : List Char)
    (_hw1 : ws1.all Char.isWhitespace = true) (_hw2 : ws2.all Char.isWhitespace = true)
    (hpad : ws1 ++ ws2 ≠ [])
    (hq : pyStrip (pyLower q) ≠ "")
    (hcell : (pyLower ((s.2.data.get ⟨i, hi⟩).get ⟨j, hj⟩)).data
        = ws1 ++ (pyStrip (pyLower q)).data ++ ws2) :
    matchEntry s.1 s.2.columns (pyStrip (pyLower q)) i j
        ((s.2.data.get ⟨i, hi⟩).get ⟨j, hj⟩) ∈ search_link_in_workbook wb q
    ∧ (matchEntry s.1 s.2.columns (pyStrip (pyLower q)) i j
        ((s.2.data.get ⟨i, hi⟩).get ⟨j, hj⟩)).match_type = "Partial"
    ∧ (∀ m ∈ search_link_in_workbook wb q,
        m.cell_value = (s.2.data.get ⟨i, hi⟩).get ⟨j, hj⟩ →
          m.match_type = "Partial") := by
  have hne : pyLower ((s.2.data.get ⟨i, hi⟩).get ⟨j, hj⟩) ≠ pyStrip (pyLower q) := by
    intro h
    have hd := congrArg String.data h
    rw [hcell] at hd
    have hlen := congrArg List.length hd
    simp only [List.length_append] at hlen
    have h1 : ws1.length = 0 := by omega
    have h2 : ws2.length = 0 := by omega
    exact hpad (by simp [List.length_eq_zero.mp h1, List.length_eq_zero.mp h2])
  have hmatch : cellMatches (pyStrip (pyLower q))
      ((s.2.data.get ⟨i, hi⟩).get ⟨j, hj⟩) = true := by
    unfold cellMatches
    rw [hcell]
    exact containsSub_append _ _ _
  refine ⟨matchEntry_mem hq hs hi hj hmatch, ?_, ?_⟩
  · exact ((matchEntry_kind s.1 s.2.columns (pyStrip (pyLower q)) i j _).2).mpr hne
  · intro m hm hv
    obtain ⟨s', hs', i', j', hi', hj', hc', hmeq'⟩ := mem_search_elim hm
    have hcv : (s'.2.data.get ⟨i', hi'⟩).get ⟨j', hj'⟩
        = (s.2.data.get ⟨i, hi⟩).get ⟨j, hj⟩ := by
      rw [hmeq'] at hv
      exact hv
    rw [hmeq']
    refine ((matchEntry_kind s'.1 s'.2.columns (pyStrip (pyLower q)) i' j' _).2).mpr ?_
    rw [hcv]
    exact hne

/-- Witness for C10 on a workbook whose single cell is " X " and the query
"x". -/
theorem padded_cell_matches_partially_witness :
    ((("S", sheetPad) : String × SheetInfo) ∈ wbPad.sheets)
    ∧ ([' '].all Char.isWhitespace = true)
    ∧ ([' '] ++ [' '] ≠ ([] : List Char))
    ∧ pyStrip (pyLower "x") ≠ ""
    ∧ (pyLower " X ").data = [' '] ++ (pyStrip (pyLower "x")).data ++ [' ']
    ∧ (matchEntry "S" sheetPad.columns (pyStrip (pyLower "x")) 0 0 " X "
          ∈ search_link_in_workbook wbPad "x"
      ∧ (matchEntry "S" sheetPad.columns (pyStrip (pyLower "x")) 0 0 " X ").match_type
          = "Partial"
      ∧ (∀ m ∈ search_link_in_workbook wbPad "x",
          m.cell_value = " X " → m.match_type = "Partial")) :=
  ⟨by decide, by decide, by decide, by decide, by decide,
    padded_cell_matches_partially wbPad "x" ("S", sheetPad) (by decide) 0 0 (by decide)
      (by decide) [' '] [' '] (by decide) (by decide) (by decide) (by decide)
      (by decide)⟩

end LinkChecker
